import Mathlib

/-!
Verification development for the Diabetes-Manager recommendation pipeline.

The definitions below are a shallow embedding of the TypeScript source of
the `/api/recommend` route (`src/pages/index.tsx`, the bundle section holding
`createRecommendationHandler`, `buildRecommendationPrompt`,
`analyzeMedicationPatterns`, `getMostCommon`, `getAIRecommendation`,
`normalizeConfidence`, `checkSufficientHistory` and `formatLocalTime`),
of `src/lib/config.ts`, and of the client dialog
`src/components/dialogs/InsulinRecommendationDialog.tsx`.

Modelling conventions:
- JavaScript `Date` instants are epoch milliseconds (`Int`).
- JavaScript numbers are rationals (`ℚ`); the dose values and thresholds the
  claims touch are small exact decimals, where binary floating point and ℚ
  order comparisons agree.
- `Date.prototype.toLocaleString` with an IANA `timeZone` option is an
  external builtin over the timezone database; a timezone is embedded as a
  `TZData` record carrying the two projections the code uses (the local hour
  of an instant, and the formatted local-time string of an instant).
- Fallible external calls (database lookups, the OpenAI transport,
  `JSON.parse`) are embedded as `Option`/sum types; the handler is a pure
  function from an environment record (one field per external input) to the
  trace of SSE messages written, model-gateway calls made, and rows saved.
-/

namespace DM

attribute [local semireducible] Rat.add Rat.mul Rat.sub Rat.inv

/-- JS epoch milliseconds. -/
abbrev Millis := Int

/-- ASCII lowercasing of one character (the fragment of JS `toLowerCase` the
code exercises: enum strings such as "HIGH"). -/
def jsToLowerChar (c : Char) : Char :=
  if 'A' ≤ c ∧ c ≤ 'Z' then Char.ofNat (c.toNat + 32) else c

/-- ASCII `String.prototype.toLowerCase`. -/
def jsToLower (s : String) : String := String.mk (s.toList.map jsToLowerChar)

/-- `String.prototype.includes` for a single character. -/
def strHasChar (s : String) (c : Char) : Bool := s.toList.contains c

/-- Entry type enum from `src/types/index.ts` (`glucose`, `meal`, `insulin`). -/
inductive EntryType
  | glucose
  | meal
  | insulin
deriving DecidableEq, Repr

/-- Uppercase tag used in the prompt's history block (`entry.entryType.toUpperCase()`). -/
def EntryType.upper : EntryType → String
  | .glucose => "GLUCOSE"
  | .meal => "MEAL"
  | .insulin => "INSULIN"

/-- An `Entry` row, restricted to the fields the recommendation pipeline reads.
`units` and `medicationBrand` are optional in the TS type; `none` is JS
`undefined`/`null`. -/
structure Entry where
  entryType : EntryType
  value : String
  units : Option String
  medicationBrand : Option String
  occurredAt : Millis
deriving DecidableEq, Repr

/-- One element of a patient's `usualMedications` list. -/
structure Medication where
  brand : String
  dosage : String
  timing : String
deriving DecidableEq, Repr

/-- The duck-typed `usualMedications` field: depending on the persistence
backend it is a JSON-encoded string, a native array, or something else
(`null`/`undefined`). -/
inductive MedsField
  | str (s : String)
  | arr (ms : List Medication)
  | other
deriving Repr

/-- A `Patient` row, restricted to the fields `buildRecommendationPrompt` reads. -/
structure Patient where
  id : String
  userId : String
  name : String
  dob : Millis
  diabetesType : String
  lifestyle : Option String
  activityLevel : Option String
  usualMedications : MedsField

/-- A timezone, embedded as the two projections of the
`toLocaleString('en-US', {..., timeZone})` builtin that the source uses:
the local hour of an instant (`hour: '2-digit', hour12: false`, a value in
0..24 — the en-US h24 cycle renders midnight as 24) and the formatted
local date-time string produced by `formatLocalTime`. -/
structure TZData where
  localHour : Millis → Nat
  fmt : Millis → String

/-- `src/lib/config.ts`: `GLUCOSE_TARGET_RANGES.targetMin`. -/
def glucoseTargetMin : Nat := 100

/-- `src/lib/config.ts`: `GLUCOSE_TARGET_RANGES.targetMax`. -/
def glucoseTargetMax : Nat := 150

/-- `src/lib/config.ts`: `DOSE_DIFFERENCE_WARNING_THRESHOLD = 0.2`. -/
def doseDifferenceWarningThreshold : ℚ := 2/10

/-- Result shape of `checkSufficientHistory`. -/
structure HistoryCheck where
  hasSufficientHistory : Bool
  message : String
deriving DecidableEq, Repr

/-- The zero-entries message of `checkSufficientHistory`. -/
def noHistoryMessage : String :=
  "No patient history found. Please add at least 1 day of glucose readings, meals, and insulin doses before getting recommendations."

/-- The fewer-than-three-entries message of `checkSufficientHistory`; reports the count. -/
def fewEntriesMessage (totalEntries : Nat) : String :=
  "Only " ++ toString totalEntries ++ " entries found. Please add at least 3 entries (glucose, meals, insulin) over at least 1 day before getting recommendations."

/-- The all-entries-are-from-today message of `checkSufficientHistory`. -/
def allTodayMessage : String :=
  "All entries are from today. Please add entries from at least 1 day ago to provide better context for recommendations."

/-- The sufficient-history message of `checkSufficientHistory`. -/
def sufficientMessage : String :=
  "Sufficient history available for recommendations."

/-- Number of milliseconds in 24 hours; `oneDayAgo` in the source is built with
`setDate(getDate() - 1)`, i.e. the same wall-clock time one calendar day
earlier, which is 24h in the absence of a DST transition. -/
def oneDayMs : Int := 86400000

/-- `checkSufficientHistory` from `src/pages/index.tsx`: evaluated over the
patient's full (all-time) entry list, with `now` the server's current time. -/
def checkSufficientHistory (now : Millis) (entries : List Entry) : HistoryCheck :=
  let totalEntries := entries.length
  if totalEntries = 0 then
    ⟨false, noHistoryMessage⟩
  else if totalEntries < 3 then
    ⟨false, fewEntriesMessage totalEntries⟩
  else
    let oneDayAgo := now - oneDayMs
    let hasHistoricalData := entries.any (fun e => decide (e.occurredAt < oneDayAgo))
    if !hasHistoricalData then
      ⟨false, allTodayMessage⟩
    else
      ⟨true, sufficientMessage⟩

/-! ### JSON values and `JSON.parse`

`JSON.parse` is a JS builtin; it is embedded as a strict fuel-based JSON
parser over the character list of the input (fuel bounded by the input
length, which suffices since every recursive step consumes a character). -/

/-- A parsed JSON value. Numbers are rationals (see module docstring). -/
inductive Json
  | null
  | bool (b : Bool)
  | num (q : ℚ)
  | str (s : String)
  | arr (xs : List Json)
  | obj (kvs : List (String × Json))

/-- Opening curly brace character. -/
def lbrace : Char := Char.ofNat 123

/-- Closing curly brace character. -/
def rbrace : Char := Char.ofNat 125

/-- JSON insignificant whitespace. -/
def jsonWs (c : Char) : Bool := c = ' ' || c = '\t' || c = '\n' || c = '\r'

/-- Drop leading JSON whitespace. -/
def skipWs : List Char → List Char
  | [] => []
  | c :: cs => if jsonWs c then skipWs cs else c :: cs

/-- Take a maximal run of ASCII digits. -/
def takeDigits : List Char → List Char × List Char
  | [] => ([], [])
  | c :: cs =>
    if c.isDigit then
      let p := takeDigits cs
      (c :: p.1, p.2)
    else ([], c :: cs)

/-- Numeric value of a digit run. -/
def digitsToNat (ds : List Char) : Nat := ds.foldl (fun a c => a * 10 + (c.toNat - 48)) 0

/-- Match a literal character sequence, returning the remainder. -/
def parseLit : List Char → List Char → Option (List Char)
  | [], cs => some cs
  | _ :: _, [] => none
  | l :: ls, c :: cs => if c = l then parseLit ls cs else none

/-- Hex digit value. -/
def hexVal (c : Char) : Option Nat :=
  if '0' ≤ c ∧ c ≤ '9' then some (c.toNat - 48)
  else if 'a' ≤ c ∧ c ≤ 'f' then some (c.toNat - 87)
  else if 'A' ≤ c ∧ c ≤ 'F' then some (c.toNat - 55)
  else none

/-- The rational with the given integer value (kernel-computable constructor). -/
def ratOfNat (n : Nat) : ℚ := mkRat (Int.ofNat n) 1

/-- The rational `n / 10^k` (kernel-computable constructor). -/
def ratFrac (n : Nat) (k : Nat) : ℚ := mkRat (Int.ofNat n) (10 ^ k)

/-- The rational `10^ex` for an integer exponent. -/
def pow10 (ex : Int) : ℚ :=
  if 0 ≤ ex then mkRat (Int.ofNat (10 ^ ex.toNat)) 1 else mkRat 1 (10 ^ (-ex).toNat)

/-- Exponent part of a JSON number (after the `e`/`E`). -/
def parseExp (cs : List Char) : Option (Int × List Char) :=
  let p := match cs with
    | '+' :: r => ((1 : Int), r)
    | '-' :: r => ((-1 : Int), r)
    | _ => ((1 : Int), cs)
  let d := takeDigits p.2
  if d.1.isEmpty then none else some (p.1 * Int.ofNat (digitsToNat d.1), d.2)

/-- A JSON number (strict grammar: no leading zeros, mandatory digits around
the decimal point). -/
def parseNumber (cs : List Char) : Option (ℚ × List Char) := do
  let sp := match cs with
    | '-' :: r => (true, r)
    | _ => (false, cs)
  let ip := takeDigits sp.2
  if ip.1.isEmpty then none
  else if 1 < ip.1.length ∧ ip.1.head? = some '0' then none
  else do
    let intPart : ℚ := ratOfNat (digitsToNat ip.1)
    let (fracPart, cs3) ← match ip.2 with
      | '.' :: r =>
        let fp := takeDigits r
        if fp.1.isEmpty then none
        else some ((ratFrac (digitsToNat fp.1) fp.1.length, fp.2))
      | _ => some ((0 : ℚ), ip.2)
    let (ex, cs4) ← match cs3 with
      | 'e' :: r => parseExp r
      | 'E' :: r => parseExp r
      | _ => some ((0 : Int), cs3)
    let mag := (intPart + fracPart) * pow10 ex
    some (if sp.1 then -mag else mag, cs4)

/-- Body of a JSON string literal (opening quote already consumed); returns the
content characters and the remainder after the closing quote. -/
def parseStrChars : Nat → List Char → Option (List Char × List Char)
  | 0, _ => none
  | Nat.succ fuel, cs =>
    let cont := fun (ch : Char) (r : List Char) =>
      (parseStrChars fuel r).map (fun p => (ch :: p.1, p.2))
    match cs with
    | [] => none
    | c :: r =>
      if c = '"' then some ([], r)
      else if c = '\\' then
        match r with
        | [] => none
        | e :: r2 =>
          if e = '"' ∨ e = '\\' ∨ e = '/' then cont e r2
          else if e = 'b' then cont (Char.ofNat 8) r2
          else if e = 'f' then cont (Char.ofNat 12) r2
          else if e = 'n' then cont '\n' r2
          else if e = 'r' then cont '\r' r2
          else if e = 't' then cont '\t' r2
          else if e = 'u' then
            match r2 with
            | h1 :: h2 :: h3 :: h4 :: r3 =>
              match hexVal h1, hexVal h2, hexVal h3, hexVal h4 with
              | some a, some b, some c2, some d =>
                cont (Char.ofNat (((a * 16 + b) * 16 + c2) * 16 + d)) r3
              | _, _, _, _ => none
            | _ => none
          else none
      else if c.toNat < 32 then none
      else cont c r

/-- A JSON string literal body as a `String`. -/
def parseStrRest (cs : List Char) : Option (String × List Char) :=
  (parseStrChars (cs.length + 1) cs).map (fun p => (String.mk p.1, p.2))

mutual

/-- A JSON value (leading whitespace allowed). -/
def parseValue : Nat → List Char → Option (Json × List Char)
  | 0, _ => none
  | Nat.succ fuel, cs0 =>
    match skipWs cs0 with
    | [] => none
    | c :: r =>
      if c = lbrace then
        match skipWs r with
        | [] => none
        | c2 :: r2 =>
          if c2 = rbrace then some (.obj [], r2)
          else parseMembers fuel (c2 :: r2) []
      else if c = '[' then
        match skipWs r with
        | [] => none
        | c2 :: r2 =>
          if c2 = ']' then some (.arr [], r2)
          else parseElems fuel (c2 :: r2) []
      else if c = '"' then
        (parseStrRest r).map (fun p => (Json.str p.1, p.2))
      else if c = 't' then
        (parseLit ['r', 'u', 'e'] r).map (fun r2 => (Json.bool true, r2))
      else if c = 'f' then
        (parseLit ['a', 'l', 's', 'e'] r).map (fun r2 => (Json.bool false, r2))
      else if c = 'n' then
        (parseLit ['u', 'l', 'l'] r).map (fun r2 => (Json.null, r2))
      else
        (parseNumber (c :: r)).map (fun p => (Json.num p.1, p.2))

/-- Members of a JSON object (after at least one member is known to follow). -/
def parseMembers : Nat → List Char → List (String × Json) → Option (Json × List Char)
  | 0, _, _ => none
  | Nat.succ fuel, cs, acc =>
    match skipWs cs with
    | [] => none
    | c :: r =>
      if c = '"' then
        match parseStrRest r with
        | none => none
        | some (k, r2) =>
          match skipWs r2 with
          | [] => none
          | c2 :: r3 =>
            if c2 = ':' then
              match parseValue fuel r3 with
              | none => none
              | some (v, r4) =>
                match skipWs r4 with
                | [] => none
                | c3 :: r5 =>
                  if c3 = ',' then parseMembers fuel r5 (acc ++ [(k, v)])
                  else if c3 = rbrace then some (.obj (acc ++ [(k, v)]), r5)
                  else none
            else none
      else none

/-- Elements of a JSON array (after at least one element is known to follow). -/
def parseElems : Nat → List Char → List Json → Option (Json × List Char)
  | 0, _, _ => none
  | Nat.succ fuel, cs, acc =>
    match parseValue fuel cs with
    | none => none
    | some (v, r) =>
      match skipWs r with
      | [] => none
      | c :: r2 =>
        if c = ',' then parseElems fuel r2 (acc ++ [v])
        else if c = ']' then some (.arr (acc ++ [v]), r2)
        else none

end

/-- `JSON.parse`: strict parse of the whole input (only trailing whitespace
may remain). `none` is the thrown `SyntaxError`. -/
def parseJson (s : String) : Option Json :=
  match parseValue (s.toList.length + 1) s.toList with
  | none => none
  | some (v, rest) => if (skipWs rest).isEmpty then some v else none

/-- JS property read `obj[k]` on a parsed JSON value: on objects the last
binding wins (as in `JSON.parse`); any other value yields `undefined`. -/
def Json.getField : Json → String → Option Json
  | .obj kvs, k => ((kvs.filter (fun kv => kv.1 == k)).getLast?).map (fun kv => kv.2)
  | _, _ => none

/-- `typeof x === 'number' ? x : undefined`. -/
def Json.asNum : Option Json → Option ℚ
  | some (.num q) => some q
  | _ => none

/-- `typeof x === 'string' ? x : undefined`. -/
def Json.asStr : Option Json → Option String
  | some (.str s) => some s
  | _ => none

/-! ### Model Gateway and Response Parser (`getAIRecommendation`) -/

/-- The `confidence` enum of a `Recommendation`. -/
inductive Conf
  | high
  | medium
  | low
deriving DecidableEq, Repr

/-- `normalizeConfidence` from `src/pages/index.tsx`: exact enum values pass
through; other strings are lowercased and retried; anything else is
`undefined`. -/
def normalizeConfidence : Option Json → Option Conf
  | some (.str s) =>
    if s = "high" then some .high
    else if s = "medium" then some .medium
    else if s = "low" then some .low
    else
      let lowered := jsToLower s
      if lowered = "high" then some .high
      else if lowered = "medium" then some .medium
      else if lowered = "low" then some .low
      else none
  | _ => none

/-- JS regex whitespace class (the ASCII part; the claims only exercise it on
ASCII text). -/
def jsWs (c : Char) : Bool :=
  c = ' ' || c = '\t' || c = '\n' || c = '\r' || c = Char.ofNat 11 || c = Char.ofNat 12

/-- Drop leading `\s` characters. -/
def skipJsWs : List Char → List Char
  | [] => []
  | c :: cs => if jsWs c then skipJsWs cs else c :: cs

/-- Try the regex `"doseUnits"\s*:\s*(\d+(?:\.\d+)?)` anchored at the head of
the input, returning `parseFloat` of the captured group. -/
def matchDoseAt (cs : List Char) : Option ℚ :=
  match parseLit ("\"doseUnits\"".toList) cs with
  | none => none
  | some r =>
    match skipJsWs r with
    | [] => none
    | c :: r2 =>
      if c = ':' then
        let r3 := skipJsWs r2
        let ip := takeDigits r3
        if ip.1.isEmpty then none
        else
          let fracPart : ℚ :=
            match ip.2 with
            | c2 :: r5 =>
              if c2 = '.' then
                let fp := takeDigits r5
                if fp.1.isEmpty then 0
                else ratFrac (digitsToNat fp.1) fp.1.length
              else 0
            | [] => 0
          some (ratOfNat (digitsToNat ip.1) + fracPart)
      else none

/-- Leftmost match of the dose-extraction regex over the whole input. -/
def extractScan : List Char → Option ℚ
  | [] => none
  | c :: r =>
    match matchDoseAt (c :: r) with
    | some q => some q
    | none => extractScan r

/-- `responseContent.match(/"doseUnits"\s*:\s*(\d+(?:\.\d+)?)/)` followed by
`parseFloat` of the captured group. -/
def extractDoseUnits (s : String) : Option ℚ := extractScan s.toList

/-- The `AIRecommendationResult` fields produced by the gateway/parser. -/
structure AIRec where
  doseUnits : Option ℚ
  medicationName : Option String
  reasoning : Option String
  safetyNotes : Option String
  confidence : Option Conf
  recommendedMonitoring : Option String
deriving DecidableEq, Repr

/-- Outcome of the OpenAI transport call, as seen by `getAIRecommendation`:
a thrown transport error (carrying `error.message`, or `none` for a thrown
non-`Error` value), a response with missing content, or the raw response
text. -/
inductive ModelOutcome
  | apiError (msg : Option String)
  | noContent
  | content (raw : String)

/-- Reasoning text of the gateway fallback; names the underlying error. -/
def gatewayFallbackReasoning (msg : String) : String :=
  "Unable to get AI recommendation due to technical issues. Please consult with your healthcare provider for insulin dosing guidance. Error: " ++ msg

/-- The canned conservative fallback returned when the OpenAI call fails. -/
def gatewayFallback (msg : String) : AIRec :=
  { doseUnits := some 8
    medicationName := none
    reasoning := some (gatewayFallbackReasoning msg)
    safetyNotes := some "Technical error occurred - manual review required"
    confidence := some .low
    recommendedMonitoring := some "Consult healthcare provider immediately" }

/-- The best-effort result produced when the response text is not valid JSON. -/
def parseFailureRec (raw : String) : AIRec :=
  { doseUnits := some ((extractDoseUnits raw).getD 8)
    medicationName := some "Unknown"
    reasoning := some raw
    safetyNotes := some "Unable to parse structured response"
    confidence := some .low
    recommendedMonitoring := some "Please consult healthcare provider" }

/-- Field coercion applied to a successfully parsed JSON response. -/
def parsedRec (j : Json) : AIRec :=
  { doseUnits := Json.asNum (j.getField "doseUnits")
    medicationName := Json.asStr (j.getField "medicationName")
    reasoning := Json.asStr (j.getField "reasoning")
    safetyNotes := Json.asStr (j.getField "safetyNotes")
    confidence := normalizeConfidence (j.getField "confidence")
    recommendedMonitoring := Json.asStr (j.getField "recommendedMonitoring") }

/-- `getAIRecommendation` from `src/pages/index.tsx` (the Model Gateway plus
Response Parser): total — every outcome yields a usable recommendation.
The source's inner try/catch covers the property reads after `JSON.parse` as
well: when the response text parses to the JSON value `null`, the read
`parsed.doseUnits` throws a TypeError that lands in the same catch, so that
input also takes the regex-fallback path (every other parsed value — number,
string, boolean, array, object — supports property reads and takes the
coercion path). -/
def getAIRecommendation : ModelOutcome → AIRec
  | .apiError msg => gatewayFallback (msg.getD "Unknown error")
  | .noContent => gatewayFallback "No response content from OpenAI"
  | .content raw =>
    match parseJson raw with
    | some .null => parseFailureRec raw
    | some j => parsedRec j
    | none => parseFailureRec raw

/-! ### Medication Pattern Analyzer (`analyzeMedicationPatterns`, `getMostCommon`) -/

/-- JS `String.prototype.trim` (ASCII whitespace fragment). -/
def jsTrim (s : String) : String :=
  String.mk (((s.toList.dropWhile jsWs).reverse.dropWhile jsWs).reverse)

/-- `normalizeBrand` from `analyzeMedicationPatterns`: falsy input (missing or
empty) and all-whitespace input become `null`; otherwise the trimmed brand. -/
def normalizeBrand : Option String → Option String
  | none => none
  | some brand =>
    if brand = "" then none
    else
      let trimmed := jsTrim brand
      if 0 < trimmed.length then some trimmed else none

/-- Local hour of an entry in the supplied timezone (the
`toLocaleString('en-US', \x7bhour: '2-digit', hour12: false, timeZone\x7d)`
read in the source). -/
def localHourOf (tz : TZData) (e : Entry) : Nat := tz.localHour e.occurredAt

/-- Insulin entries whose local hour is in [6, 12). -/
def morningEntries (tz : TZData) (es : List Entry) : List Entry :=
  es.filter (fun e => decide (6 ≤ localHourOf tz e ∧ localHourOf tz e < 12))

/-- Insulin entries whose local hour is in [12, 18). -/
def afternoonEntries (tz : TZData) (es : List Entry) : List Entry :=
  es.filter (fun e => decide (12 ≤ localHourOf tz e ∧ localHourOf tz e < 18))

/-- Insulin entries whose local hour is in [18, 24] or [0, 6) (the source
condition `hour >= 18 || hour < 6`; hour 24 arises from the h24 cycle). -/
def eveningEntries (tz : TZData) (es : List Entry) : List Entry :=
  es.filter (fun e => decide (18 ≤ localHourOf tz e ∨ localHourOf tz e < 6))

/-- Non-empty trimmed brands of a bucket (`.map(normalizeBrand).filter(Boolean)`). -/
def morningMeds (tz : TZData) (es : List Entry) : List String :=
  (morningEntries tz es).filterMap (fun e => normalizeBrand e.medicationBrand)

/-- Non-empty trimmed brands of the afternoon bucket. -/
def afternoonMeds (tz : TZData) (es : List Entry) : List String :=
  (afternoonEntries tz es).filterMap (fun e => normalizeBrand e.medicationBrand)

/-- Non-empty trimmed brands of the evening bucket. -/
def eveningMeds (tz : TZData) (es : List Entry) : List String :=
  (eveningEntries tz es).filterMap (fun e => normalizeBrand e.medicationBrand)

/-- Insertion of a key into a JS object's key list (`counts[item] = ...`):
a fresh key is appended, an existing key keeps its position. -/
def insertKey (ks : List String) (a : String) : List String :=
  if ks.contains a then ks else ks ++ [a]

/-- The keys of the `counts` object in insertion order (first occurrence). -/
def insertionKeys (arr : List String) : List String := arr.foldl insertKey []

/-- Numeric value of an all-digits key. -/
def keyNum (s : String) : Nat := digitsToNat s.toList

/-- Whether a string is a JS array-index key (the canonical decimal form of an
integer below 2^32 - 1); such keys iterate first, in ascending order. -/
def isArrayIndexKey (s : String) : Bool :=
  if s.toList ≠ [] ∧ s.toList.all Char.isDigit then
    decide (toString (keyNum s) = s ∧ keyNum s < 4294967295)
  else false

/-- Insert into a list sorted by `le` (kernel-computable insertion sort). -/
def insertSorted (le : String → String → Bool) (a : String) : List String → List String
  | [] => [a]
  | b :: t => if le a b then a :: b :: t else b :: insertSorted le a t

/-- Sort by `le` (insertion sort; the sorted keys here are distinct). -/
def sortByKey (le : String → String → Bool) (l : List String) : List String :=
  l.foldr (insertSorted le) []

/-- `Object.keys(counts)` iteration order: array-index keys first in ascending
numeric order, then the remaining string keys in insertion order. -/
def objectKeysOrder (arr : List String) : List String :=
  let ks := insertionKeys arr
  sortByKey (fun a b => keyNum a ≤ keyNum b) (ks.filter isArrayIndexKey) ++
    ks.filter (fun k => !isArrayIndexKey k)

/-- The count a key reaches in the `counts` object. -/
def countOf (arr : List String) (k : String) : Nat := arr.count k

/-- `getMostCommon` from `src/pages/index.tsx`: `Object.keys(counts).reduce((a, b)
=> counts[a] > counts[b] ? a : b)` after counting; `null` on an empty input.
(The `[]` branch of the match only arises for an empty input, where the source
returns `null` before reducing.) -/
def getMostCommon (arr : List String) : Option String :=
  match objectKeysOrder arr with
  | [] => none
  | k :: ks => some (ks.foldl (fun a b => if countOf arr a > countOf arr b then a else b) k)

/-- JS `parseFloat` (`none` is `NaN`): optional sign, digits with optional
fraction (at least one digit on one side of the dot), optional exponent,
trailing garbage ignored. (`Infinity` literals are not modelled; they do not
occur in dose values.) -/
def jsParseFloat (s : String) : Option ℚ :=
  let cs := skipJsWs s.toList
  let sp := match cs with
    | '-' :: r => (true, r)
    | '+' :: r => (false, r)
    | _ => (false, cs)
  let ip := takeDigits sp.2
  let fp := match ip.2 with
    | '.' :: r => takeDigits r
    | _ => ([], ip.2)
  if ip.1.isEmpty ∧ fp.1.isEmpty then none
  else
    let ex : Int := match fp.2 with
      | 'e' :: r => (parseExp r).elim 0 (fun p => p.1)
      | 'E' :: r => (parseExp r).elim 0 (fun p => p.1)
      | _ => 0
    let mag := (ratOfNat (digitsToNat ip.1) + ratFrac (digitsToNat fp.1) fp.1.length) * pow10 ex
    some (if sp.1 then -mag else mag)

/-- Decimal digits of a fraction in [0, 1) (at most `fuel` digits; the doses
the code prints are short terminating decimals). -/
def decimalDigits : Nat → ℚ → List Char
  | 0, _ => []
  | Nat.succ fuel, q =>
    if q = 0 then []
    else
      let d := (q * 10).floor
      Char.ofNat (48 + d.toNat) :: decimalDigits fuel (q * 10 - ratOfNat d.toNat)

/-- JS number-to-string for the terminating decimals produced by `parseFloat`
on dose values (integer part, then fraction digits when nonzero). -/
def jsNumToString (q : ℚ) : String :=
  let sgn := if q < 0 then "-" else ""
  let a := |q|
  let ipart := a.floor.toNat
  let ds := decimalDigits 20 (a - ratOfNat ipart)
  sgn ++ toString ipart ++ (if ds.isEmpty then "" else "." ++ String.mk ds)

/-- JS `toFixed(1)` on the nonnegative averages the code prints (round half up
to one decimal, always printing one digit). -/
def toFixed1 (q : ℚ) : String :=
  let n := (q * 10 + mkRat 1 2).floor
  let m := n.natAbs
  (if n < 0 then "-" else "") ++ toString (m / 10) ++ "." ++ toString (m % 10)

/-- `Array.prototype.join('\n')`. -/
def strJoinNl : List String → String
  | [] => ""
  | [a] => a
  | a :: b :: t => a ++ "\n" ++ strJoinNl (b :: t)

/-- Sentinel returned when there are no insulin entries at all. -/
def noPatternsMessage : String := "No recent insulin administration patterns available."

/-- Returned when entries exist but no pattern line could be produced. -/
def limitedPatternsMessage : String := "Limited pattern data available."

/-- The morning pattern line. -/
def morningLine (brand : String) (n : Nat) : String :=
  "Morning (6 AM - 12 PM): Primarily uses " ++ brand ++ " (" ++ toString n ++ " entries)"

/-- The afternoon pattern line. -/
def afternoonLine (brand : String) (n : Nat) : String :=
  "Afternoon (12 PM - 6 PM): Primarily uses " ++ brand ++ " (" ++ toString n ++ " entries)"

/-- The evening/night pattern line. -/
def eveningLine (brand : String) (n : Nat) : String :=
  "Evening/Night (6 PM - 6 AM): Primarily uses " ++ brand ++ " (" ++ toString n ++ " entries)"

/-- The dose-statistics line over the first five supplied insulin entries. -/
def doseRangeLine (mn mx avg : ℚ) : String :=
  "Recent dose range: " ++ jsNumToString mn ++ "-" ++ jsNumToString mx ++
    " IU (average: " ++ toFixed1 avg ++ " IU)"

/-- The `patterns` array built by `analyzeMedicationPatterns`: one line per
bucket that is non-empty and has a most-common brand, then the dose line when
any of the first five entries parses as a number. -/
def patternLines (tz : TZData) (insulinEntries : List Entry) : List String :=
  let l1 : List String :=
    if 0 < (morningEntries tz insulinEntries).length then
      match getMostCommon (morningMeds tz insulinEntries) with
      | some b => [morningLine b (morningEntries tz insulinEntries).length]
      | none => []
    else []
  let l2 : List String :=
    if 0 < (afternoonEntries tz insulinEntries).length then
      match getMostCommon (afternoonMeds tz insulinEntries) with
      | some b => [afternoonLine b (afternoonEntries tz insulinEntries).length]
      | none => []
    else []
  let l3 : List String :=
    if 0 < (eveningEntries tz insulinEntries).length then
      match getMostCommon (eveningMeds tz insulinEntries) with
      | some b => [eveningLine b (eveningEntries tz insulinEntries).length]
      | none => []
    else []
  let recentDoses := (insulinEntries.take 5).filterMap (fun e => jsParseFloat e.value)
  let l4 : List String :=
    match recentDoses with
    | [] => []
    | d :: ds =>
      let mn := ds.foldl (fun a b => if b < a then b else a) d
      let mx := ds.foldl (fun a b => if a < b then b else a) d
      let avg := (d :: ds).foldl (fun a b => a + b) 0 / ratOfNat (d :: ds).length
      [doseRangeLine mn mx avg]
  l1 ++ l2 ++ l3 ++ l4

/-- `analyzeMedicationPatterns` from `src/pages/index.tsx` (the unused
`_targetTime` parameter is dropped). -/
def analyzeMedicationPatterns (tz : TZData) (insulinEntries : List Entry) : String :=
  if insulinEntries.length = 0 then noPatternsMessage
  else
    let patterns := patternLines tz insulinEntries
    if 0 < patterns.length then strJoinNl patterns else limitedPatternsMessage

/-! ### Prompt Builder (`buildRecommendationPrompt`) -/

/-- JS template-literal stringification of a JSON-derived value (`undefined`
prints as "undefined"; nested arrays/objects do not occur in medication
records and are approximated). -/
def displayJson : Option Json → String
  | none => "undefined"
  | some (.str s) => s
  | some (.num q) => jsNumToString q
  | some (.bool b) => if b then "true" else "false"
  | some .null => "null"
  | some (.arr _) => ""
  | some (.obj _) => "[object Object]"

/-- One medication from a JSON array element (property reads of the unchecked
`as Medication[]` cast). -/
def medOfJson (j : Json) : Medication :=
  { brand := displayJson (j.getField "brand")
    dosage := displayJson (j.getField "dosage")
    timing := displayJson (j.getField "timing") }

/-- Medication list from a parsed JSON value. (A string that parses to a
non-array escapes the source try/catch and would crash the later `.map`; the
claims do not exercise that corner and it is modelled as the empty list.) -/
def jsonToMeds : Json → List Medication
  | .arr xs => xs.map medOfJson
  | _ => []

/-- The `usualMedications` normalization at the top of
`buildRecommendationPrompt`: parse if a string (empty string falls back to
`'[]'`), pass through if an array, empty list on anything else or on a parse
error. -/
def medicationsOf : MedsField → List Medication
  | .str s =>
    match parseJson (if s = "" then "[]" else s) with
    | some j => jsonToMeds j
    | none => []
  | .arr ms => ms
  | .other => []

/-- `Array.prototype.join(sep)`. -/
def strJoinSep (sep : String) : List String → String
  | [] => ""
  | [a] => a
  | a :: b :: t => a ++ sep ++ strJoinSep sep (b :: t)

/-- `Math.floor((now - dob) / (365.25 * 24 * 60 * 60 * 1000))`. -/
def ageYears (now dob : Millis) : Int := Int.fdiv (now - dob) 31557600000

/-- `x || 'Not specified'`. -/
def orNotSpecified : Option String → String
  | some s => if s = "" then "Not specified" else s
  | none => "Not specified"

/-- `${med.brand} ${med.dosage} (${med.timing})`. -/
def medDisplay (m : Medication) : String :=
  m.brand ++ " " ++ m.dosage ++ " (" ++ m.timing ++ ")"

/-- The `<PATIENT_INFO>` block. -/
def patientInfoBlock (now : Millis) (patient : Patient) (medications : List Medication) : String :=
  "\n<PATIENT_INFO>\n- Name: " ++ patient.name ++
    "\n- Age: " ++ toString (ageYears now patient.dob) ++ " years old" ++
    "\n- Diabetes Type: " ++ patient.diabetesType ++
    "\n- Lifestyle: " ++ orNotSpecified patient.lifestyle ++
    "\n- Activity Level: " ++ orNotSpecified patient.activityLevel ++
    "\n- Usual Medications: " ++ strJoinSep ", " (medications.map medDisplay) ++
    "\n</PATIENT_INFO>\n"

/-- The `<TARGET_TIME>` block (`formatLocalTime(targetTime, timeZone)` is the
`fmt` projection of the timezone). -/
def targetTimeBlock (tz : TZData) (targetTime : Millis) : String :=
  "\n<TARGET_TIME>\nTarget Administration Time: " ++ tz.fmt targetTime ++ "\n</TARGET_TIME>\n"

/-- Stable descending insertion by `occurredAt` (JS `sort((a, b) => b - a)`,
which is stable). -/
def insertEntryDesc (a : Entry) : List Entry → List Entry
  | [] => [a]
  | b :: t => if b.occurredAt ≤ a.occurredAt then a :: b :: t else b :: insertEntryDesc a t

/-- Entries sorted newest first. -/
def sortEntriesDesc (es : List Entry) : List Entry := es.foldr insertEntryDesc []

/-- ` ${units}` when units are present and truthy. -/
def unitsPart : Option String → String
  | some u => if u = "" then "" else " " ++ u
  | none => ""

/-- `(${medicationBrand})` when a brand is present and truthy. -/
def brandPart : Option String → String
  | some b => if b = "" then "" else "(" ++ b ++ ")"
  | none => ""

/-- One entry of the history block. -/
def entryBlock (tz : TZData) (e : Entry) : String :=
  "<" ++ e.entryType.upper ++ ">\n    <VALUE>" ++ e.value ++ unitsPart e.units ++ " " ++
    brandPart e.medicationBrand ++ "</VALUE>\n    <OCCURRED_AT>" ++ tz.fmt e.occurredAt ++
    "</OCCURRED_AT>\n    </" ++ e.entryType.upper ++ ">"

/-- The `<RECENT_HISTORY>` block: the 24h sub-window enumerated before the
24-72h sub-window, each sorted newest first. -/
def recentHistoryBlock (now : Millis) (tz : TZData) (entries : List Entry) : String :=
  let sortedEntries := sortEntriesDesc entries
  let twentyFourHoursAgo := now - oneDayMs
  let mostRecentEntries := sortedEntries.filter (fun e => decide (twentyFourHoursAgo ≤ e.occurredAt))
  let olderEntries := sortedEntries.filter (fun e => decide (e.occurredAt < twentyFourHoursAgo))
  if 0 < entries.length then
    "<RECENT_HISTORY>\n" ++
      (if 0 < mostRecentEntries.length then
        "MOST RECENT ENTRIES (Last 24 hours):\n" ++
          strJoinSep "\n" (mostRecentEntries.map (entryBlock tz))
      else "No entries in the last 24 hours.") ++
      "\n\n" ++
      (if 0 < olderEntries.length then
        "OLDER ENTRIES (24-72 hours ago):\n" ++ strJoinSep "\n" (olderEntries.map (entryBlock tz))
      else "") ++
      "\n</RECENT_HISTORY>"
  else "<RECENT_HISTORY>\nNo recent entries in the last 72 hours.\n</RECENT_HISTORY>"

/-- The `<MEDICATION_PATTERN_ANALYSIS>` block. -/
def patternBlock (medicationPatterns : String) : String :=
  "\n<MEDICATION_PATTERN_ANALYSIS>\nBased on recent insulin administration patterns:\n" ++
    medicationPatterns ++ "\n</MEDICATION_PATTERN_ANALYSIS>\n"

def promptBeforeA : String :=
  "\n<TASK>\nYou are a medical AI assistant specializing in diabetes management and insulin dosing recommendations. Your task is to analyze patient data and provide evidence-based insulin dose recommendations for administration at a specific target time, prioritizing recent glucose readings and patterns over historical medication preferences.\n</TASK>\n\n<INSTRUCTIONS>\nYou must provide your response in the exact JSON format specified below. Do not include any additional text, explanations, or formatting outside of the JSON structure.\n\nConsider the following factors when making your recommendation, in order of priority:\n1. **CURRENT GLUCOSE LEVELS**: The most recent glucose reading is the primary factor. If glucose is high, consider higher doses; if low, consider lower doses.\n2. **GLUCOSE TRENDS**: Look at glucose patterns over the past 24-72 hours to understand the patient's current metabolic state.\n3. **Recent meals and their timing relative to the target administration time**\n4. **Previous insulin doses and their effectiveness** (how well recent doses controlled glucose)\n5. **Patient's diabetes type and current health status**\n6. **Time until administration and potential glucose changes**\n7. **Patient's lifestyle and activity level**\n8. **Safety considerations to minimize risk of hypoglycemia or hyperglycemia**\n9. **MEDICATION SELECTION**: Choose the most appropriate medication based on:\n   - **TIME-BASED PATTERNS**: Maintain consistency with the patient's usual medication schedule for specific times of day (e.g., if they use Actrapid in the morning, continue using Actrapid in the morning)\n   - **BRAND CONSISTENCY**: Stick to the same medication brand that the patient typically uses at this time of day, unless there's a compelling clinical reason to change\n   - **DOSE FLEXIBILITY**: While keeping the same medication brand, adjust the dose based on current glucose levels and recent trends\n   - **The patient's usual medications as the primary reference for brand selection**\n\n**For morning fasted blood sugar, the ideal target range is "

def promptBeforeB : String :=
  " mg/dL.**\n\nThe morning fasted blood sugar target range represents the optimal glucose level for patients after an overnight fast and before breakfast. Maintaining glucose within this range helps minimize the risk of both hypoglycemia (low blood sugar) and hyperglycemia (high blood sugar) at the start of the day. \n\n**IMPORTANT**: Base your dose primarily on the current glucose reading and recent trends. Do not feel constrained by the patient's usual medications or historical doses if the current situation warrants a different approach. Recent glucose readings and patterns should drive your recommendation more than historical preferences.\n\n"

def staleClinicalRule : String :=
  "**IMPORTANT CLINICAL RULE**: Only use a glucose reading as the primary basis for insulin dosing if it was measured after the most recent insulin dose. If the most recent glucose reading is from before the last insulin administration, it is outdated and should not be used as the main basis for the current recommendation. In such cases, base your recommendation on recent trends, usual doses, and safety, and clearly state that a new glucose reading is needed for optimal dosing. Meals do not invalidate a glucose reading for dosing purposes."

def promptTailA : String :=
  "\n\n**NOTE**: The recent history is divided into two sections: \"MOST RECENT ENTRIES\" (last 24 hours) and \"OLDER ENTRIES\" (24-72 hours ago). The most recent insulin dose will be the first insulin entry in the \"MOST RECENT ENTRIES\" section. Pay special attention to the most recent entries as they are most relevant for current dosing decisions.\n\nAlways prioritize patient safety and be conservative in your recommendations.\n</INSTRUCTIONS>\n\n<CONTEXT>\n"

def promptTailB : String :=
  "\n</CONTEXT>\n\n<RESPONSE_FORMAT>\nProvide your recommendation in the following exact JSON format. Do not include any text before or after the JSON:\n\n\x7b\n  \"doseUnits\": <number>,\n  \"medicationName\": \"<medication name from recent history or usual medications>\",\n  \"reasoning\": \"<detailed explanation of your recommendation>\",\n  \"safetyNotes\": \"<any important safety warnings or considerations>\",\n  \"confidence\": \"<high|medium|low>\",\n  \"recommendedMonitoring\": \"<specific monitoring recommendations>\"\n\x7d\n\nWhere:\n- doseUnits: Recommended insulin dose in IU (International Units), based primarily on current glucose and recent trends\n- medicationName: The medication name from recent history, usual medications, or a logical choice based on timing and duration needed\n- reasoning: Detailed explanation focusing on current glucose levels, recent trends, and why this dose/medication is appropriate now\n- safetyNotes: Any important safety warnings, contraindications, or special considerations\n- confidence: Your confidence level in this recommendation (high/medium/low)\n- recommendedMonitoring: Specific recommendations for glucose monitoring after administration\n</RESPONSE_FORMAT>\n\n<GOOD_EXAMPLE>\n\x7b\n  \"doseUnits\": 15,\n  \"medicationName\": \"Actrapid\",\n  \"reasoning\": \"Current glucose reading is 220 mg/dL, which is significantly above the target range of 100-150 mg/dL. The patient's glucose has been trending upward over the past 24 hours, with readings of 180, 195, and now 220 mg/dL. This suggests inadequate insulin coverage. The last insulin dose was 8 IU of Actrapid 6 hours ago, but glucose continued to rise. Actrapid is maintained as the medication choice since it's consistently used by this patient for morning insulin administration, maintaining brand consistency. However, the dose is increased to 15 IU (from the usual 8-10 IU range) to address the current high glucose and upward trend.\",\n  \"safetyNotes\": \"This is a higher dose than recent administrations. Monitor glucose closely at 1, 2, and 4 hours post-administration. Have fast-acting carbohydrates available. Consider reducing the dose if patient is planning significant physical activity.\",\n  \"confidence\": \"medium\",\n  \"recommendedMonitoring\": \"Check glucose at 1, 2, and 4 hours post-administration. Monitor for signs of hypoglycemia. If glucose remains high after 2 hours, consider additional insulin or contact healthcare provider.\"\n\x7d\n</GOOD_EXAMPLE>\n\n<BAD_EXAMPLE>\n\x7b\n  \"doseUnits\": 8,\n  \"medicationName\": \"Actrapid\",\n  \"reasoning\": \"Patient usually takes 8 IU of Actrapid\",\n  \"safetyNotes\": \"Be careful\",\n  \"confidence\": \"high\",\n  \"recommendedMonitoring\": \"Check glucose\"\n\x7d\n\x7b\n  \"doseUnits\": 12,\n  \"medicationName\": \"Actrapid\",\n  \"reasoning\": \"The patient's glucose was 181 mg/dL at 7:00 AM, so a higher dose is recommended after lunch.\",\n  \"safetyNotes\": \"Monitor for hypoglycemia.\",\n  \"confidence\": \"medium\",\n  \"recommendedMonitoring\": \"Check glucose after 2 hours.\"\n\x7d\n</BAD_EXAMPLE>\n\n<FINAL_INSTRUCTIONS>\nRemember: This is a medical recommendation that should be reviewed by healthcare professionals before administration. Base your dose recommendation primarily on current glucose readings and recent trends, but maintain consistency with the patient's usual medication brand for the specific time of day. Provide detailed, evidence-based reasoning that explains why this specific dose is appropriate for the current situation while maintaining the patient's established medication routine. Always prioritize patient safety and be prepared to adjust doses when the current glucose situation warrants it, but keep the same medication brand unless there's a compelling clinical reason to change.\n</FINAL_INSTRUCTIONS>\n"

/-- The template text preceding the stale-reading clinical rule (static apart
from the configured glucose target range). -/
def promptBefore : String :=
  promptBeforeA ++ toString glucoseTargetMin ++ "-" ++ toString glucoseTargetMax ++ promptBeforeB

/-- The template text following the stale-reading clinical rule, around the
interpolated context blocks. -/
def promptAfter (patientInfo targetTimeInfo recentHistory patternAnalysis : String) : String :=
  promptTailA ++ patientInfo ++ "\n\n" ++ targetTimeInfo ++ "\n\n" ++ recentHistory ++
    "\n\n" ++ patternAnalysis ++ promptTailB

/-- `buildRecommendationPrompt` from `src/pages/index.tsx`. `now` is the
`new Date()` the source reads for the age computation and the 24h split;
`entries` is the caller-filtered 72h window. -/
def buildRecommendationPrompt (now : Millis) (tz : TZData) (patient : Patient)
    (entries : List Entry) (targetTime : Millis) : String :=
  let medications := medicationsOf patient.usualMedications
  let insulinEntries := entries.filter (fun e => decide (e.entryType = EntryType.insulin))
  let medicationPatterns := analyzeMedicationPatterns tz insulinEntries
  let patientInfo := patientInfoBlock now patient medications
  let targetTimeInfo := targetTimeBlock tz targetTime
  let recentHistory := recentHistoryBlock now tz entries
  let patternAnalysis := if medicationPatterns = "" then "" else patternBlock medicationPatterns
  promptBefore ++ (staleClinicalRule ++ promptAfter patientInfo targetTimeInfo recentHistory patternAnalysis)

/-! ### Progress Streamer and pipeline orchestration (`createRecommendationHandler`) -/

/-- What the handler passes to `createRecommendation` (the row written to the
recommendations store, before the database assigns `id`/`createdAt`). -/
structure RecInput where
  patientId : String
  prompt : String
  response : String
  doseUnits : Option ℚ
  medicationName : Option String
  reasoning : Option String
  safetyNotes : Option String
  confidence : Option Conf
  recommendedMonitoring : Option String
deriving DecidableEq, Repr

/-- Database-assigned metadata of a saved recommendation row. -/
structure SavedMeta where
  id : String
  createdAt : Millis
deriving DecidableEq, Repr

/-- The `result` payload streamed to the client (the saved row plus the
caller's target time). -/
structure RecommendationPayload where
  id : String
  patientId : String
  prompt : String
  response : String
  doseUnits : Option ℚ
  medicationName : Option String
  reasoning : Option String
  safetyNotes : Option String
  confidence : Option Conf
  recommendedMonitoring : Option String
  createdAt : Millis
  targetTime : Millis
deriving DecidableEq, Repr

/-- One SSE message (`type: 'progress' | 'error' | 'result'`); `step` is the
raw string the server writes. -/
inductive SSEMessage
  | progress (step : String) (message : Option String)
  | error (err : String)
  | result (data : RecommendationPayload)
deriving DecidableEq, Repr

/-- The validated request body (`recommendSchema`); `targetTime` is the parsed
instant of the optional ISO string (`Date` parsing is a JS builtin). -/
structure RecommendRequest where
  patientId : String
  targetTime : Option Millis
deriving DecidableEq, Repr

/-- All external inputs of one `createRecommendationHandler` invocation:
session user id, the e-mail lookup result, the request body (`none` is a
schema-validation failure), the patient lookup result, the patient's entries,
the server clock, the resolved timezone builtin, the model-call outcome and
the save outcome. -/
structure HandlerEnv where
  userId : String
  userByEmail : Option String
  body : Option RecommendRequest
  patient : Option Patient
  entries : List Entry
  now : Millis
  tz : TZData
  model : ModelOutcome
  saveResult : Option SavedMeta

/-- Observable effects of one handler run: the SSE messages written in order,
the prompts sent to the model gateway, the save calls attempted, and the rows
actually persisted (empty when the save returned nothing). -/
structure HandlerTrace where
  messages : List SSEMessage
  modelCalls : List String
  saveCalls : List RecInput
  saved : List RecInput
deriving Repr

/-- 72 hours in milliseconds. -/
def seventyTwoHoursMs : Int := 259200000

/-- `createRecommendationHandler` from `src/pages/index.tsx` as a trace
function. Each early `sendError` return produces a trace ending in that
error; the success path ends in the `result` message. -/
def runHandler (env : HandlerEnv) : HandlerTrace :=
  if strHasChar env.userId '@' ∧ env.userByEmail = none then
    ⟨[.error "User not found"], [], [], []⟩
  else
    let actualUserId :=
      if strHasChar env.userId '@' then env.userByEmail.getD env.userId else env.userId
    match env.body with
    | none => ⟨[.error "Validation failed"], [], [], []⟩
    | some body =>
      let targetDateTime := body.targetTime.getD env.now
      let g1 := SSEMessage.progress "gathering-data" (some "Checking authentication...")
      let g2 := SSEMessage.progress "gathering-data" (some "Loading patient data...")
      match env.patient with
      | none => ⟨[g1, g2, .error "Patient not found"], [], [], []⟩
      | some patient =>
        if patient.userId ≠ actualUserId then
          ⟨[g1, g2, .error "Patient not found"], [], [], []⟩
        else
          let g3 := SSEMessage.progress "gathering-data" (some "Loading recent entries...")
          let recentEntries :=
            env.entries.filter (fun e => decide (env.now - seventyTwoHoursMs ≤ e.occurredAt))
          let g4 := SSEMessage.progress "gathering-data"
            (some ("Found " ++ toString recentEntries.length ++ " recent entries"))
          let check := checkSufficientHistory env.now env.entries
          if check.hasSufficientHistory then
            let b1 := SSEMessage.progress "building-prompt" (some "Building AI prompt...")
            let prompt := buildRecommendationPrompt env.now env.tz patient recentEntries targetDateTime
            let b2 := SSEMessage.progress "building-prompt" (some "Prompt built successfully")
            let w1 := SSEMessage.progress "waiting-for-model" (some "Calling AI model...")
            let aiRec := getAIRecommendation env.model
            let w2 := SSEMessage.progress "waiting-for-model" (some "AI response received")
            let p1 := SSEMessage.progress "parsing-response" (some "Processing recommendation...")
            let recInput : RecInput :=
              { patientId := body.patientId
                prompt := prompt
                response := aiRec.reasoning.getD "No reasoning provided"
                doseUnits := aiRec.doseUnits
                medicationName := aiRec.medicationName
                reasoning := aiRec.reasoning
                safetyNotes := aiRec.safetyNotes
                confidence := aiRec.confidence
                recommendedMonitoring := aiRec.recommendedMonitoring }
            match env.saveResult with
            | none =>
              ⟨[g1, g2, g3, g4, b1, b2, w1, w2, p1, .error "Failed to save recommendation"],
                [prompt], [recInput], []⟩
            | some meta =>
              let p2 := SSEMessage.progress "parsing-response" (some "Recommendation saved")
              let payload : RecommendationPayload :=
                { id := meta.id
                  patientId := recInput.patientId
                  prompt := recInput.prompt
                  response := recInput.response
                  doseUnits := recInput.doseUnits
                  medicationName := recInput.medicationName
                  reasoning := recInput.reasoning
                  safetyNotes := recInput.safetyNotes
                  confidence := recInput.confidence
                  recommendedMonitoring := recInput.recommendedMonitoring
                  createdAt := meta.createdAt
                  targetTime := targetDateTime }
              ⟨[g1, g2, g3, g4, b1, b2, w1, w2, p1, p2, .result payload],
                [prompt], [recInput], [recInput]⟩
          else
            ⟨[g1, g2, g3, g4, .error check.message], [], [], []⟩

/-- The step string of a progress message. -/
def msgStep : SSEMessage → Option String
  | .progress step _ => some step
  | _ => none

/-- The steps of the progress messages, in emission order. -/
def progressSteps (msgs : List SSEMessage) : List String := msgs.filterMap msgStep

/-- Collapse consecutive duplicates. -/
def dedupConsec : List String → List String
  | [] => []
  | [a] => [a]
  | a :: b :: t => if a = b then dedupConsec (b :: t) else a :: dedupConsec (b :: t)

/-- The pipeline stages in their mandated forward order. -/
def stageNames : List String :=
  ["gathering-data", "building-prompt", "waiting-for-model", "parsing-response"]

/-- Whether a message is terminal (`error` or `result`). -/
def isTerminalMsg : SSEMessage → Bool
  | .error _ => true
  | .result _ => true
  | _ => false

/-- There is exactly one terminal message and it is the last message written. -/
def terminalLast (msgs : List SSEMessage) : Bool :=
  match msgs.getLast? with
  | none => false
  | some m => isTerminalMsg m && msgs.dropLast.all (fun x => !isTerminalMsg x)

/-- The Progress Streamer contract on one run's message list: the distinct
consecutive stages form a prefix of the forward stage order (no skips, no
backward transitions), `idle` is never emitted, and exactly one terminal
message ends the stream. -/
def sseOk (msgs : List SSEMessage) : Bool :=
  (dedupConsec (progressSteps msgs)).isPrefixOf stageNames &&
    !(progressSteps msgs).contains "idle" &&
    terminalLast msgs

/-! ### Safety Checker (client dialog, `InsulinRecommendationDialog.tsx`) -/

/-- The dose-difference check of the `result` case in `startRecommendation`:
`newRecommendation.doseUnits && lastDose` (JS numeric truthiness) guards
`Math.abs(doseUnits - lastDose) / lastDose > DOSE_DIFFERENCE_WARNING_THRESHOLD`. -/
def doseWarningFlag (doseUnits lastDose : Option ℚ) : Bool :=
  match doseUnits, lastDose with
  | some d, some l =>
    if d ≠ 0 ∧ l ≠ 0 then decide (|d - l| / l > doseDifferenceWarningThreshold)
    else false
  | _, _ => false

/-- `const [lastDose] = useState<number | null>(null)`: initialized to `null`;
the destructuring binds no setter, so no assignment to it exists anywhere in
the component. -/
def lastDoseState : Option ℚ := none

/-- Client dialog state relevant to the streamed run. -/
structure ClientState where
  progress : String
  recommendation : Option RecommendationPayload
  error : Option String
  showWarning : Bool
  onSuccessCalls : Nat
deriving Repr

/-- Dialog state right after `startRecommendation` begins (progress set to
`gathering-data`, error/recommendation cleared, warning cleared). -/
def clientInit : ClientState :=
  { progress := "gathering-data"
    recommendation := none
    error := none
    showWarning := false
    onSuccessCalls := 0 }

/-- Processing of one received SSE message by `startRecommendation`'s read
loop (the terminal cases also return from the loop; processing stops there). -/
def clientStep (s : ClientState) (m : SSEMessage) : ClientState :=
  match m with
  | .progress step _ => { s with progress := step }
  | .error e => { s with error := some e, progress := "error" }
  | .result d =>
    { s with
      showWarning := s.showWarning || doseWarningFlag d.doseUnits lastDoseState
      recommendation := some d
      progress := "complete"
      onSuccessCalls := s.onSuccessCalls + 1 }

/-- The dialog state after processing a streamed message list. -/
def runClient (msgs : List SSEMessage) : ClientState := msgs.foldl clientStep clientInit

/-- The client-side handling of a received `result` message alone, starting
from an arbitrary warning-free state reached during the run. -/
def clientResultCase (lastDose : Option ℚ) (d : RecommendationPayload) : ClientState :=
  { progress := "complete"
    recommendation := some d
    error := none
    showWarning := doseWarningFlag d.doseUnits lastDose
    onSuccessCalls := 1 }

/-! ### Theorems -/

/-- Claim C4 (confirmed): the Model Gateway is total (never throws to its
caller), and on every gateway-level failure — a thrown transport error (with
or without an `Error` message, covering network failures and non-2xx
responses) or missing response content — it returns the fallback
recommendation with `doseUnits` exactly 8, confidence `low`, reasoning that
states the AI call failed and names the underlying error, and monitoring
advice to consult a healthcare provider immediately. -/
theorem c4_gateway_fallback :
    ∀ msg : Option String,
      (getAIRecommendation (.apiError msg)).doseUnits = some 8 ∧
      (getAIRecommendation (.apiError msg)).confidence = some Conf.low ∧
      (getAIRecommendation (.apiError msg)).reasoning =
        some (gatewayFallbackReasoning (msg.getD "Unknown error")) ∧
      (getAIRecommendation (.apiError msg)).recommendedMonitoring =
        some "Consult healthcare provider immediately" ∧
      (getAIRecommendation .noContent).doseUnits = some 8 ∧
      (getAIRecommendation .noContent).confidence = some Conf.low ∧
      (getAIRecommendation .noContent).reasoning =
        some (gatewayFallbackReasoning "No response content from OpenAI") ∧
      (getAIRecommendation .noContent).recommendedMonitoring =
        some "Consult healthcare provider immediately" ∧
      (∀ m : String, gatewayFallbackReasoning m =
        "Unable to get AI recommendation due to technical issues. Please consult with your healthcare provider for insulin dosing guidance. Error: " ++ m) :=
  fun _ => ⟨rfl, rfl, rfl, rfl, rfl, rfl, rfl, rfl, fun _ => rfl⟩

/-- The concrete JSON example of the spec's parser test. -/
def jsonHighExample : String := "\x7b\"doseUnits\": 12, \"confidence\": \"HIGH\"\x7d"

/-- A raw response that is not valid JSON but contains a dose pattern. -/
def unparsableExample : String :=
  "I cannot produce JSON today but \"doseUnits\": 7.5 seems appropriate."

/-- Claim C5 (confirmed): when the raw response parses as a JSON object, the
confidence field is normalized case-insensitively to high/medium/low and left
undefined when unrecognized (the example input yields confidence `high` and
dose 12); a response parsing to JSON `null` throws on the property read and
falls into the same catch as a parse failure; on the parse-failure path the
parser regex-extracts a `"doseUnits": <number>` pattern (7.5 in the example),
defaults to 8 when absent, sets confidence `low`, sets the unable-to-parse
safety note, and carries the raw text as the reasoning. -/
theorem c5_response_parsing :
    (∀ raw kvs, parseJson raw = some (.obj kvs) →
      getAIRecommendation (.content raw) = parsedRec (.obj kvs) ∧
      (parsedRec (.obj kvs)).confidence =
        normalizeConfidence (Json.getField (.obj kvs) "confidence")) ∧
    (∀ raw, parseJson raw = some .null →
      getAIRecommendation (.content raw) = parseFailureRec raw) ∧
    (∀ s : String,
      normalizeConfidence (some (.str s)) =
        (if jsToLower s = "high" then some Conf.high
         else if jsToLower s = "medium" then some Conf.medium
         else if jsToLower s = "low" then some Conf.low
         else none)) ∧
    (∀ j q, normalizeConfidence (some (.num q)) = none ∧ normalizeConfidence (some (.bool true)) = none ∧
      normalizeConfidence (some (.arr [j])) = none ∧ normalizeConfidence none = none) ∧
    (getAIRecommendation (.content jsonHighExample)).confidence = some Conf.high ∧
    (getAIRecommendation (.content jsonHighExample)).doseUnits = some 12 ∧
    (∀ raw, parseJson raw = none →
      getAIRecommendation (.content raw) = parseFailureRec raw ∧
      (parseFailureRec raw).doseUnits = some ((extractDoseUnits raw).getD 8) ∧
      (parseFailureRec raw).confidence = some Conf.low ∧
      (parseFailureRec raw).safetyNotes = some "Unable to parse structured response" ∧
      (parseFailureRec raw).reasoning = some raw) ∧
    parseJson unparsableExample = none ∧
    (getAIRecommendation (.content unparsableExample)).doseUnits = some (15/2) ∧
    (getAIRecommendation (.content unparsableExample)).confidence = some Conf.low := by
  refine ⟨?_, ?_, ?_, ?_, by decide, by decide, ?_, rfl, by decide, by decide⟩
  · intro raw kvs h
    refine ⟨?_, rfl⟩
    simp only [getAIRecommendation, h]
  · intro raw h
    simp only [getAIRecommendation, h]
  · intro s
    by_cases h1 : s = "high"
    · subst h1; decide
    by_cases h2 : s = "medium"
    · subst h2; decide
    by_cases h3 : s = "low"
    · subst h3; decide
    simp only [normalizeConfidence, h1, h2, h3, if_false]
  · intro j q
    exact ⟨rfl, rfl, rfl, rfl⟩
  · intro raw h
    refine ⟨?_, rfl, rfl, rfl, rfl⟩
    simp only [getAIRecommendation, h]

/-- Witness for C5: the theorem applied at the concrete example inputs. -/
theorem c5_witness :
    getAIRecommendation (.content unparsableExample) = parseFailureRec unparsableExample ∧
    normalizeConfidence (some (.str "HIGH")) = some Conf.high := by
  constructor
  · exact (c5_response_parsing.2.2.2.2.2.2.1 unparsableExample
      c5_response_parsing.2.2.2.2.2.2.2.1).1
  · have h := c5_response_parsing.2.2.1 "HIGH"
    rw [h]; decide

/-- Claim C9 (confirmed): given a truthy new dose and truthy prior dose, the
client dose-difference check flags a warning exactly when
`abs(new - prior) / prior` exceeds the configured 0.20 threshold, and the
flag never prevents the recommendation from being surfaced: the `result`
handler stores the recommendation and invokes the success callback
regardless of the warning. -/
theorem c9_safety_checker :
    (∀ d l : ℚ, d ≠ 0 → l ≠ 0 →
      (doseWarningFlag (some d) (some l) = true ↔
        |d - l| / l > doseDifferenceWarningThreshold)) ∧
    (∀ lastDose d,
      (clientResultCase lastDose d).recommendation = some d ∧
      (clientResultCase lastDose d).onSuccessCalls = 1 ∧
      (clientResultCase lastDose d).progress = "complete") := by
  constructor
  · intro d l hd hl
    simp [doseWarningFlag, hd, hl]
  · intro lastDose d
    exact ⟨rfl, rfl, rfl⟩

/-- Witness for C9: prior dose 10 with new dose 13 (ratio 0.30) flags the
warning; prior dose 10 with new dose 11 (ratio 0.10) does not. -/
theorem c9_witness :
    doseWarningFlag (some 13) (some 10) = true ∧
    doseWarningFlag (some 11) (some 10) = false := by
  constructor
  · refine (c9_safety_checker.1 13 10 (by norm_num) (by norm_num)).mpr ?_
    norm_num [doseDifferenceWarningThreshold]
  · by_contra h
    rw [Bool.not_eq_false] at h
    have := (c9_safety_checker.1 11 10 (by norm_num) (by norm_num)).mp h
    norm_num [doseDifferenceWarningThreshold] at this

/-- `showWarning` stays false along any processed message list when it starts
false and the prior dose is `null`. -/
theorem clientStep_preserves_noWarning (msgs : List SSEMessage) (s : ClientState)
    (h : s.showWarning = false) : (msgs.foldl clientStep s).showWarning = false := by
  induction msgs generalizing s with
  | nil => exact h
  | cons m t ih =>
    refine ih (clientStep s m) ?_
    cases m with
    | progress step message => exact h
    | error e => exact h
    | result d =>
      simp only [clientStep, h, Bool.false_or]
      cases hd : d.doseUnits <;> rfl

/-- Claim C10 (confirmed): the dialog's prior-dose value is initialized to
`null` and never reassigned, the dose-difference guard is therefore false for
every received dose, and the warning is never shown in any run of the
dialog's stream-processing loop. -/
theorem c10_warning_never_shown :
    lastDoseState = none ∧
    (∀ d : Option ℚ, doseWarningFlag d lastDoseState = false) ∧
    (∀ msgs : List SSEMessage, (runClient msgs).showWarning = false) := by
  refine ⟨rfl, ?_, ?_⟩
  · intro d; cases d <;> rfl
  · intro msgs
    exact clientStep_preserves_noWarning msgs clientInit rfl

/-- Claim C2 (confirmed): the sufficiency check over the all-time entry list
returns, in order of first failing condition: no-history message for an empty
list; a count-reporting at-least-3 message for 1 or 2 entries; the
all-entries-are-from-today message for 3 or more entries none older than 24
hours; and success when 3 or more entries include one older than 24 hours.
On any insufficient result the handler ends the stream with exactly that
message as the terminal error and never calls the Model Gateway. -/
theorem c2_sufficiency_gate :
    (∀ now : Millis, checkSufficientHistory now [] = ⟨false, noHistoryMessage⟩) ∧
    (∀ (now : Millis) (entries : List Entry), entries ≠ [] → entries.length < 3 →
      checkSufficientHistory now entries = ⟨false, fewEntriesMessage entries.length⟩) ∧
    (∀ (now : Millis) (entries : List Entry), 3 ≤ entries.length →
      (∀ e ∈ entries, ¬(e.occurredAt < now - oneDayMs)) →
      checkSufficientHistory now entries = ⟨false, allTodayMessage⟩) ∧
    (∀ (now : Millis) (entries : List Entry), 3 ≤ entries.length →
      (∃ e ∈ entries, e.occurredAt < now - oneDayMs) →
      checkSufficientHistory now entries = ⟨true, sufficientMessage⟩) ∧
    (∀ (env : HandlerEnv) (b : RecommendRequest) (p : Patient),
      env.body = some b → env.patient = some p →
      strHasChar env.userId '@' = false → p.userId = env.userId →
      (checkSufficientHistory env.now env.entries).hasSufficientHistory = false →
      (runHandler env).messages.getLast? =
        some (.error (checkSufficientHistory env.now env.entries).message) ∧
      (runHandler env).modelCalls = [] ∧
      (runHandler env).saveCalls = []) := by
  refine ⟨fun now => rfl, ?_, ?_, ?_, ?_⟩
  · intro now entries hne hlt
    have h0 : ¬(entries.length = 0) := by
      simpa [List.length_eq_zero] using hne
    simp [checkSufficientHistory, h0, hlt]
  · intro now entries hge hall
    have h0 : ¬(entries.length = 0) := by omega
    have hlt : ¬(entries.length < 3) := by omega
    have hany : entries.any (fun e => decide (e.occurredAt < now - oneDayMs)) = false := by
      simp only [List.any_eq_false, decide_eq_true_eq]
      exact hall
    simp [checkSufficientHistory, h0, hlt, hany]
  · intro now entries hge hex
    have h0 : ¬(entries.length = 0) := by omega
    have hlt : ¬(entries.length < 3) := by omega
    have hany : entries.any (fun e => decide (e.occurredAt < now - oneDayMs)) = true := by
      simp only [List.any_eq_true, decide_eq_true_eq]
      exact hex
    simp [checkSufficientHistory, h0, hlt, hany]
  · intro env b p hb hp hat hown hins
    unfold runHandler
    rw [hat, hb, hp]
    simp only [Bool.false_eq_true, false_and, if_false, ite_false, ne_eq, hown,
      not_true_eq_false, if_neg, hins]
    simp [hins]

/-- A handler environment with an empty entry list for the C2 witness. -/
def c2Env : HandlerEnv :=
  { userId := "u1"
    userByEmail := none
    body := some ⟨"p1", some 6000⟩
    patient := some ⟨"p1", "u1", "Alex", 0, "type1", none, none, .arr []⟩
    entries := []
    now := 200000000
    tz := ⟨fun _ => 7, fun t => "local " ++ toString t⟩
    model := .content "irrelevant"
    saveResult := some ⟨"rec_1", 12345⟩ }

/-- Witness for C2: the empty-history case aborts the run with the no-history
message and no model call. -/
theorem c2_witness :
    checkSufficientHistory c2Env.now c2Env.entries = ⟨false, noHistoryMessage⟩ ∧
    (runHandler c2Env).messages.getLast? = some (.error noHistoryMessage) ∧
    (runHandler c2Env).modelCalls = [] := by
  have h1 := c2_sufficiency_gate.1 c2Env.now
  have h5 := c2_sufficiency_gate.2.2.2.2 c2Env ⟨"p1", some 6000⟩
    ⟨"p1", "u1", "Alex", 0, "type1", none, none, .arr []⟩ rfl rfl (by decide) rfl
    (by rw [show c2Env.entries = [] from rfl, h1])
  refine ⟨h1, ?_, h5.2.1⟩
  have := h5.1
  rwa [show c2Env.entries = [] from rfl, h1] at this

/-- Claim C3 (confirmed): in every handler run the progress steps form (after
collapsing repeats) a prefix of the forward stage order gathering-data,
building-prompt, waiting-for-model, parsing-response — so no stage is
skipped and no backward transition occurs — the server never emits an `idle`
step, and exactly one terminal message (`result` on success, `error` on
failure) is written, as the last message of the stream. -/
theorem c3_progress_protocol : ∀ env : HandlerEnv, sseOk (runHandler env).messages = true := by
  intro env
  unfold runHandler
  repeat' (first | split | (dsimp only; split))
  all_goals rfl

/-- Latest `occurredAt` among a patient's entries of one type (formalizing the
claim's "most recent glucose/insulin entry"). -/
def latestOccurredAt (t : EntryType) (es : List Entry) : Option Millis :=
  match (es.filter (fun e => decide (e.entryType = t))).map (fun e => e.occurredAt) with
  | [] => none
  | x :: xs => some (xs.foldl (fun a b => if a ≤ b then b else a) x)

/-- Concrete timezone for the C1 counterexample. -/
def c1Tz : TZData := ⟨fun _ => 9, fun t => "local " ++ toString t⟩

/-- Concrete patient for the C1 counterexample. -/
def c1Patient : Patient :=
  ⟨"p1", "u1", "Alex", 0, "type1", none, none, .arr [⟨"Actrapid", "8 IU", "morning"⟩]⟩

/-- Concrete entries for the C1 counterexample: the most recent glucose
reading (occurredAt 2000) is *after* the most recent insulin dose
(occurredAt 1000). -/
def c1Entries : List Entry :=
  [⟨.glucose, "150", some "mg/dL", none, 2000⟩,
   ⟨.insulin, "8", some "IU", some "Actrapid", 1000⟩]

/-- Counterexample to Claim C1: with the most recent glucose reading
timestamped after the most recent insulin dose, the claim requires the
rendered prompt not to contain the stale-reading guidance; yet the built
prompt does contain it (the guidance paragraph is an unconditional part of
the template). -/
theorem c1_counterexample :
    latestOccurredAt .glucose c1Entries = some 2000 ∧
    latestOccurredAt .insulin c1Entries = some 1000 ∧
    (1000 : Millis) < 2000 ∧
    ∃ a b, buildRecommendationPrompt 5000 c1Tz c1Patient c1Entries 6000 =
      a ++ (staleClinicalRule ++ b) :=
  ⟨by decide, by decide, by decide, _, _, rfl⟩

/-- Claim C1 (amended): the stale-reading guidance is part of every prompt the
builder renders, for every patient, entry window, target time and timezone —
the builder does not compare the glucose and insulin timestamps itself;
the guidance is phrased as a conditional instruction that tells *the model*
to treat the glucose value as stale and request a fresh reading exactly when
the most recent glucose reading predates the last insulin dose. -/
theorem c1_amended_stale_rule_always_present :
    ∀ (now : Millis) (tz : TZData) (patient : Patient) (entries : List Entry)
      (targetTime : Millis),
      ∃ a b, buildRecommendationPrompt now tz patient entries targetTime =
        a ++ (staleClinicalRule ++ b) :=
  fun _ _ _ _ _ => ⟨_, _, rfl⟩

/-- `getMostCommon` never returns a brand for an empty list. -/
theorem getMostCommon_ne_nil {l : List String} {b : String}
    (h : getMostCommon l = some b) : l ≠ [] := by
  intro hl
  subst hl
  simp [getMostCommon, objectKeysOrder, insertionKeys, sortByKey] at h

/-- A list with a nonempty `filterMap` image is nonempty. -/
theorem ne_nil_of_filterMap_ne_nil {α β : Type} {f : α → Option β} {l : List α}
    (h : l.filterMap f ≠ []) : l ≠ [] := by
  intro hl
  subst hl
  simp at h

/-- Claim C7 (amended): the analyzer partitions insulin entries by the local
hour of `occurredAt` computed with the supplied timezone into morning [6,12),
afternoon [12,18) and evening/night [18,24]∪[0,6); for each bucket that has a
most-common non-empty trimmed brand it emits the
`<Period>: Primarily uses <brand> (<n> entries)` line, where `n` counts all
entries of the bucket; an empty insulin list yields the fixed no-pattern-data
sentinel, which is not the empty string. (A non-empty bucket whose entries
all lack a usable brand emits no line — the correction to the claim.) -/
theorem c7_amended_pattern_analysis :
    (∀ tz : TZData, analyzeMedicationPatterns tz [] = noPatternsMessage ∧
      noPatternsMessage ≠ "") ∧
    (∀ (tz : TZData) (es : List Entry) (e : Entry),
      (e ∈ morningEntries tz es ↔
        e ∈ es ∧ 6 ≤ localHourOf tz e ∧ localHourOf tz e < 12) ∧
      (e ∈ afternoonEntries tz es ↔
        e ∈ es ∧ 12 ≤ localHourOf tz e ∧ localHourOf tz e < 18) ∧
      (e ∈ eveningEntries tz es ↔
        e ∈ es ∧ (18 ≤ localHourOf tz e ∨ localHourOf tz e < 6))) ∧
    (∀ (tz : TZData) (es : List Entry) (b : String),
      getMostCommon (morningMeds tz es) = some b →
      morningLine b (morningEntries tz es).length ∈ patternLines tz es) ∧
    (∀ (tz : TZData) (es : List Entry) (b : String),
      getMostCommon (afternoonMeds tz es) = some b →
      afternoonLine b (afternoonEntries tz es).length ∈ patternLines tz es) ∧
    (∀ (tz : TZData) (es : List Entry) (b : String),
      getMostCommon (eveningMeds tz es) = some b →
      eveningLine b (eveningEntries tz es).length ∈ patternLines tz es) := by
  refine ⟨fun tz => ⟨rfl, by decide⟩, ?_, ?_, ?_, ?_⟩
  · intro tz es e
    refine ⟨?_, ?_, ?_⟩ <;>
      simp [morningEntries, afternoonEntries, eveningEntries, List.mem_filter]
  · intro tz es b h
    have h2 : getMostCommon
        ((morningEntries tz es).filterMap (fun e => normalizeBrand e.medicationBrand)) =
        some b := h
    have hne : morningEntries tz es ≠ [] :=
      ne_nil_of_filterMap_ne_nil (f := fun e => normalizeBrand e.medicationBrand)
        (getMostCommon_ne_nil h2)
    have hlen : 0 < (morningEntries tz es).length := List.length_pos.mpr hne
    simp only [patternLines, hlen, if_true, h, List.mem_append, List.mem_singleton]
    tauto
  · intro tz es b h
    have h2 : getMostCommon
        ((afternoonEntries tz es).filterMap (fun e => normalizeBrand e.medicationBrand)) =
        some b := h
    have hne : afternoonEntries tz es ≠ [] :=
      ne_nil_of_filterMap_ne_nil (f := fun e => normalizeBrand e.medicationBrand)
        (getMostCommon_ne_nil h2)
    have hlen : 0 < (afternoonEntries tz es).length := List.length_pos.mpr hne
    simp only [patternLines, hlen, if_true, h, List.mem_append, List.mem_singleton]
    tauto
  · intro tz es b h
    have h2 : getMostCommon
        ((eveningEntries tz es).filterMap (fun e => normalizeBrand e.medicationBrand)) =
        some b := h
    have hne : eveningEntries tz es ≠ [] :=
      ne_nil_of_filterMap_ne_nil (f := fun e => normalizeBrand e.medicationBrand)
        (getMostCommon_ne_nil h2)
    have hlen : 0 < (eveningEntries tz es).length := List.length_pos.mpr hne
    simp only [patternLines, hlen, if_true, h, List.mem_append, List.mem_singleton]
    tauto

/-- A timezone whose local hour is the instant's hour-of-day (for the C7
witness, which needs entries at local hours 7, 8 and 9). -/
def c7Tz : TZData := ⟨fun t => (t % 24).toNat, fun t => "local " ++ toString t⟩

/-- Three insulin entries at local hours 7, 8, 9, all with brand Actrapid. -/
def c7Entries : List Entry :=
  [⟨.insulin, "8", some "IU", some "Actrapid", 7⟩,
   ⟨.insulin, "10", some "IU", some "Actrapid", 8⟩,
   ⟨.insulin, "9", some "IU", some "Actrapid", 9⟩]

/-- Witness for C7: the theorem applied to the Actrapid example — the morning
bucket line reports Actrapid with 3 entries. -/
theorem c7_witness :
    getMostCommon (morningMeds c7Tz c7Entries) = some "Actrapid" ∧
    morningLine "Actrapid" 3 ∈ patternLines c7Tz c7Entries := by
  have h : getMostCommon (morningMeds c7Tz c7Entries) = some "Actrapid" := by decide
  have hmem := c7_amended_pattern_analysis.2.2.1 c7Tz c7Entries "Actrapid" h
  have hlen : (morningEntries c7Tz c7Entries).length = 3 := by decide
  rw [hlen] at hmem
  exact ⟨h, hmem⟩

/-- Timezone placing every instant at local hour 7 (C7 counterexample). -/
def c7eTz : TZData := ⟨fun _ => 7, fun t => "local " ++ toString t⟩

/-- One morning insulin entry with no brand and a non-numeric value. -/
def c7eEntry : Entry := ⟨.insulin, "abc", none, none, 5⟩

/-- Counterexample to Claim C7 as stated: the morning bucket is non-empty
(one insulin entry at local hour 7), yet the analyzer emits no line at all —
`patterns` is empty and the result is the limited-data fallback — because the
entry has no usable brand; the claim's "one line per non-empty bucket" fails. -/
theorem c7_counterexample :
    (morningEntries c7eTz [c7eEntry]).length = 1 ∧
    patternLines c7eTz [c7eEntry] = [] ∧
    analyzeMedicationPatterns c7eTz [c7eEntry] = limitedPatternsMessage := by
  refine ⟨by decide, by decide, by decide⟩

/-- The reducer of `getMostCommon` (`(a, b) => counts[a] > counts[b] ? a : b`)
folded from an initial champion. -/
def champReduce (c : String → Nat) (a0 : String) (l : List String) : String :=
  l.foldl (fun a b => if c a > c b then a else b) a0

/-- The champion the reducer selects is an element of maximal count, and it is
the *last* element of the iteration order attaining that maximum: everything
after it in the list has a strictly smaller count. -/
theorem champReduce_spec (c : String → Nat) :
    ∀ (l : List String) (a0 : String),
      champReduce c a0 l ∈ a0 :: l ∧
      (∀ k ∈ a0 :: l, c k ≤ c (champReduce c a0 l)) ∧
      ∃ u v, a0 :: l = u ++ champReduce c a0 l :: v ∧
        ∀ k ∈ v, c k < c (champReduce c a0 l) := by
  intro l
  induction l with
  | nil =>
    intro a0
    refine ⟨by simp [champReduce], ?_, [], [], by simp [champReduce], by simp⟩
    intro k hk
    have hk2 : k = a0 := by simpa using hk
    subst hk2
    exact le_refl _
  | cons b t ih =>
    intro a0
    have hfold : champReduce c a0 (b :: t) = champReduce c (if c a0 > c b then a0 else b) t :=
      rfl
    by_cases hc : c a0 > c b
    · rw [hfold, if_pos hc]
      obtain ⟨hmem, hmax, u', v', hdec, hstr⟩ := ih a0
      refine ⟨?_, ?_, ?_⟩
      · rcases List.mem_cons.mp hmem with h | h
        · simp [h]
        · simp [List.mem_cons_of_mem, h]
      · intro k hk
        rcases List.mem_cons.mp hk with h | h
        · subst h; exact hmax k (List.mem_cons_self _ _)
        · rcases List.mem_cons.mp h with h2 | h2
          · subst h2
            exact le_of_lt (lt_of_lt_of_le hc (hmax a0 (List.mem_cons_self _ _)))
          · exact hmax k (List.mem_cons_of_mem _ h2)
      · cases u' with
        | nil =>
          have h1 : a0 = champReduce c a0 t ∧ t = v' := by
            have := hdec
            simp only [List.nil_append, List.cons.injEq] at this
            exact this
          refine ⟨[], b :: t, ?_, ?_⟩
          · rw [List.nil_append, ← h1.1]
          · intro k hk
            rcases List.mem_cons.mp hk with h2 | h2
            · subst h2
              rw [← h1.1]
              exact hc
            · rw [h1.2] at h2
              exact hstr k h2
        | cons x u'' =>
          have h1 : x = a0 ∧ t = u'' ++ champReduce c a0 t :: v' := by
            have := hdec
            simp only [List.cons_append, List.cons.injEq] at this
            exact ⟨this.1.symm, this.2⟩
          refine ⟨a0 :: b :: u'', v', ?_, hstr⟩
          rw [List.cons_append, List.cons_append, ← h1.2]
    · rw [hfold, if_neg hc]
      obtain ⟨hmem, hmax, u', v', hdec, hstr⟩ := ih b
      have hab : c a0 ≤ c b := Nat.le_of_not_lt hc
      refine ⟨List.mem_cons_of_mem _ hmem, ?_, a0 :: u', v', ?_, hstr⟩
      · intro k hk
        rcases List.mem_cons.mp hk with h | h
        · subst h
          exact hab.trans (hmax b (List.mem_cons_self _ _))
        · exact hmax k h
      · rw [List.cons_append, ← hdec]

/-- `insertKey` never shrinks the key list. -/
theorem foldl_insertKey_length (t : List String) :
    ∀ ks : List String, ks.length ≤ (t.foldl insertKey ks).length := by
  induction t with
  | nil => intro ks; exact le_refl _
  | cons x t ih =>
    intro ks
    have h1 : ks.length ≤ (insertKey ks x).length := by
      unfold insertKey
      split
      · exact le_refl _
      · simp
    exact h1.trans (ih _)

/-- A nonempty brand list produces a nonempty key list. -/
theorem insertionKeys_ne_nil {arr : List String} (h : arr ≠ []) :
    insertionKeys arr ≠ [] := by
  cases arr with
  | nil => exact absurd rfl h
  | cons x t =>
    intro hnil
    have h4 : List.foldl insertKey (insertKey [] x) t = [] := hnil
    have h1 := foldl_insertKey_length t (insertKey [] x)
    rw [h4, show insertKey [] x = [x] from rfl] at h1
    simp at h1

/-- Insertion preserves length plus one. -/
theorem insertSorted_length (le : String → String → Bool) (a : String) :
    ∀ l : List String, (insertSorted le a l).length = l.length + 1 := by
  intro l
  induction l with
  | nil => rfl
  | cons b t ih =>
    unfold insertSorted
    split
    · simp
    · simp [ih]

/-- Sorting preserves length. -/
theorem sortByKey_length (le : String → String → Bool) :
    ∀ l : List String, (sortByKey le l).length = l.length := by
  intro l
  induction l with
  | nil => rfl
  | cons b t ih =>
    have h : sortByKey le (b :: t) = insertSorted le b (sortByKey le t) := rfl
    rw [h, insertSorted_length, ih]
    simp

/-- A filter partition preserves total length. -/
theorem filter_partition_length (p : String → Bool) :
    ∀ l : List String, (l.filter p).length + (l.filter (fun x => !p x)).length = l.length := by
  intro l
  induction l with
  | nil => rfl
  | cons x t ih =>
    by_cases hx : p x = true
    · simp [List.filter, hx, ih]
      omega
    · have hx2 : p x = false := by
        cases hpx : p x
        · rfl
        · exact absurd hpx hx
      simp [List.filter, hx2]
      omega

/-- The iteration order of a nonempty brand list is nonempty. -/
theorem objectKeysOrder_ne_nil {arr : List String} (h : arr ≠ []) :
    objectKeysOrder arr ≠ [] := by
  have hk := insertionKeys_ne_nil h
  intro h0
  unfold objectKeysOrder at h0
  have hlen := congrArg List.length h0
  rw [List.length_append, sortByKey_length, List.length_nil] at hlen
  rw [filter_partition_length isArrayIndexKey (insertionKeys arr)] at hlen
  exact hk (List.length_eq_zero.mp hlen)

/-- Claim C8 (amended): within a bucket's brand list, `getMostCommon` returns
a brand of maximal count; when brands are tied for the highest count the
reported brand is the *last* key in the `counts` object's iteration order
(array-index-like keys in ascending numeric order first, then first
occurrences in encounter order) — not the first-encountered brand. -/
theorem c8_amended_most_common :
    ∀ arr : List String, arr ≠ [] →
      ∃ r, getMostCommon arr = some r ∧
        r ∈ objectKeysOrder arr ∧
        (∀ k ∈ objectKeysOrder arr, countOf arr k ≤ countOf arr r) ∧
        ∃ u v, objectKeysOrder arr = u ++ r :: v ∧
          ∀ k ∈ v, countOf arr k < countOf arr r := by
  intro arr h
  cases hko : objectKeysOrder arr with
  | nil => exact absurd hko (objectKeysOrder_ne_nil h)
  | cons k ks =>
    obtain ⟨hmem, hmax, hdec⟩ := champReduce_spec (countOf arr) ks k
    refine ⟨champReduce (countOf arr) k ks, ?_, ?_, ?_, ?_⟩
    · unfold getMostCommon
      rw [hko]
      rfl
    · exact hmem
    · exact hmax
    · exact hdec

/-- Witness for C8: the theorem applied to the two-brand tie below. -/
theorem c8_witness :
    ∃ r, getMostCommon ["Lantus", "Humalog"] = some r ∧
      r ∈ objectKeysOrder ["Lantus", "Humalog"] ∧
      (∀ k ∈ objectKeysOrder ["Lantus", "Humalog"],
        countOf ["Lantus", "Humalog"] k ≤ countOf ["Lantus", "Humalog"] r) ∧
      ∃ u v, objectKeysOrder ["Lantus", "Humalog"] = u ++ r :: v ∧
        ∀ k ∈ v, countOf ["Lantus", "Humalog"] k < countOf ["Lantus", "Humalog"] r :=
  c8_amended_most_common ["Lantus", "Humalog"] (by decide)

/-- Counterexample to Claim C8 as stated: with the tie ["Lantus", "Humalog"]
(each count 1, "Lantus" first-encountered in iteration order), the claim
predicts "Lantus"; the code returns "Humalog", the last-encountered brand. -/
theorem c8_counterexample :
    countOf ["Lantus", "Humalog"] "Lantus" = 1 ∧
    countOf ["Lantus", "Humalog"] "Humalog" = 1 ∧
    objectKeysOrder ["Lantus", "Humalog"] = ["Lantus", "Humalog"] ∧
    getMostCommon ["Lantus", "Humalog"] = some "Humalog" ∧
    "Humalog" ≠ "Lantus" := by
  refine ⟨by decide, by decide, by decide, by decide, by decide⟩

/-- A run is successful when its last streamed message is a `result`. -/
def successRun (t : HandlerTrace) : Bool :=
  match t.messages.getLast? with
  | some (.result _) => true
  | _ => false

/-- Claim C6 (amended): a save is only ever attempted after the sufficiency
check passed for the owning patient's entries; every saved row carries the
exact prompt sent to the model and, as its `response` field, the *reasoning
text parsed from the model response* (`'No reasoning provided'` when absent)
— not the raw response text; exactly one row is persisted on a successful
run and none on a failed run; and a save that returns nothing ends the run
with the terminal save-failure error instead of a result. -/
theorem c6_amended_persistence :
    ∀ env : HandlerEnv,
      ((runHandler env).saveCalls ≠ [] →
        (checkSufficientHistory env.now env.entries).hasSufficientHistory = true) ∧
      (∀ r ∈ (runHandler env).saveCalls,
        r.prompt ∈ (runHandler env).modelCalls ∧
        r.response = (getAIRecommendation env.model).reasoning.getD "No reasoning provided") ∧
      (successRun (runHandler env) = true → (runHandler env).saved.length = 1) ∧
      (successRun (runHandler env) = false → (runHandler env).saved = []) ∧
      (env.saveResult = none → (runHandler env).saveCalls ≠ [] →
        (runHandler env).messages.getLast? =
          some (.error "Failed to save recommendation")) := by
  intro env
  unfold runHandler
  repeat' (first | split | (dsimp only; split))
  all_goals
    refine ⟨?_, ?_, ?_, ?_, ?_⟩ <;>
      (intros; first | rfl | assumption | simp_all [successRun])

/-- Raw model response for the C6 counterexample: valid JSON whose reasoning
field is "abc". -/
def c6Raw : String := "\x7b\"doseUnits\": 12, \"reasoning\": \"abc\"\x7d"

/-- A full successful-run environment: sufficient history (3 entries, one
older than 24h), owned patient, valid body, model returning `c6Raw`,
successful save. -/
def c6Env : HandlerEnv :=
  { userId := "u1"
    userByEmail := none
    body := some ⟨"p1", some 6000⟩
    patient := some ⟨"p1", "u1", "Alex", 0, "type1", none, none, .arr []⟩
    entries :=
      [⟨.glucose, "150", some "mg/dL", none, 100⟩,
       ⟨.meal, "toast", none, none, 199998000⟩,
       ⟨.insulin, "8", some "IU", some "Actrapid", 199999000⟩]
    now := 200000000
    tz := ⟨fun _ => 7, fun t => "local " ++ toString t⟩
    model := .content c6Raw
    saveResult := some ⟨"rec_1", 12345⟩ }

/-- Counterexample to Claim C6 as stated: in this successful run the single
persisted row's `response` field is "abc" — the reasoning parsed out of the
model response — and not the raw response text the row was derived from. -/
theorem c6_counterexample :
    (runHandler c6Env).saved.map (fun r => r.response) = ["abc"] ∧
    c6Env.model = .content c6Raw ∧
    "abc" ≠ c6Raw := by
  refine ⟨by decide, rfl, by decide⟩

/-- Witness for C6: the theorem applied to the concrete successful run. -/
theorem c6_witness :
    (checkSufficientHistory c6Env.now c6Env.entries).hasSufficientHistory = true ∧
    (runHandler c6Env).saved.length = 1 := by
  refine ⟨(c6_amended_persistence c6Env).1 ?_, (c6_amended_persistence c6Env).2.2.1 ?_⟩
  · intro h
    exact absurd (congrArg List.length h) (by decide)
  · decide

end DM
